import Mathlib

/-!
# orders-service: verification of the spec claims against a shallow embedding

This file embeds the core of the orders-service Go repository in Lean 4:
the TTL cache (cache/cache.go), the Postgres adapter (database/database.go),
the Kafka message handler (handler package), the HTTP lookup handler
(server package) and the boot/shutdown coordinator (app package).

Conventions of the embedding:
- Go `time.Time` / `time.Duration` values are `Int` nanoseconds (Go's
  `UnixNano` representation); `time.Now()` becomes an explicit `now`
  parameter threaded to each operation that reads the clock.
- A Go `map[string]V` is an association list `List (String × V)` with
  first-match lookup and in-place overwrite, plus the lemmas relating them.
- Fallible operations return `Except` paired with the resulting state;
  external failures (SQL errors, file-system errors, undecodable bytes)
  are injected through explicit oracle parameters so that every error
  branch of the source is reachable in the model.
- The `model` package is not part of the sources; its record shapes are
  reconstructed from the field accesses in database/database.go, the
  handler and the server.
-/

namespace OrdersService

/-! ## Go map operations on association lists -/

namespace gomap

/-- Lookup in a Go map: first binding of the key, if any. -/
def find (m : List (String × α)) (k : String) : Option α :=
  match m with
  | [] => none
  | (k1, v) :: rest => if k1 = k then some v else find rest k

/-- Go map assignment `m[k] = v`: overwrite the existing binding in place,
or append a fresh binding. -/
def update (m : List (String × α)) (k : String) (v : α) : List (String × α) :=
  match m with
  | [] => [(k, v)]
  | (k1, v1) :: rest => if k1 = k then (k, v) :: rest else (k1, v1) :: update rest k v

/-- Go `delete(m, k)`: remove every binding of the key. -/
def erase (m : List (String × α)) (k : String) : List (String × α) :=
  m.filter (fun kv => decide (kv.1 ≠ k))

end gomap

/-! ## model package (record shapes reconstructed from field accesses in src) -/

namespace model

/-- One line item of an order (model.Item). -/
structure Item where
  chrtID : Int
  trackNumber : String
  price : Int
  rid : String
  name : String
  sale : Int
  size : String
  totalPrice : Int
  nmID : Int
  brand : String
  status : Int
deriving DecidableEq, Repr

/-- The Go zero value model.Item{}. -/
def Item.zero : Item :=
  { chrtID := 0, trackNumber := "", price := 0, rid := "", name := "", sale := 0,
    size := "", totalPrice := 0, nmID := 0, brand := "", status := 0 }

/-- Shipping destination block (model.Delivery). -/
structure Delivery where
  name : String
  phone : String
  zip : String
  city : String
  address : String
  region : String
  email : String
deriving DecidableEq, Repr

/-- The Go zero value model.Delivery{}. -/
def Delivery.zero : Delivery :=
  { name := "", phone := "", zip := "", city := "", address := "", region := "", email := "" }

/-- Payment block (model.Payment). -/
structure Payment where
  transaction : String
  requestID : String
  currency : String
  provider : String
  amount : Int
  paymentDt : Int
  bank : String
  deliveryCost : Int
  goodsTotal : Int
  customFee : Int
deriving DecidableEq, Repr

/-- The Go zero value model.Payment{}. -/
def Payment.zero : Payment :=
  { transaction := "", requestID := "", currency := "", provider := "", amount := 0,
    paymentDt := 0, bank := "", deliveryCost := 0, goodsTotal := 0, customFee := 0 }

/-- The order record (model.Order). -/
structure Order where
  orderUID : String
  trackNumber : String
  entry : String
  locale : String
  internalSignature : String
  customerID : String
  deliveryService : String
  shardkey : String
  smID : Int
  dateCreated : String
  oofShard : String
  delivery : Delivery
  payment : Payment
  items : List Item
deriving DecidableEq, Repr

/-- The Go zero value model.Order{}, returned by cache.Get on a miss. -/
def Order.zero : Order :=
  { orderUID := "", trackNumber := "", entry := "", locale := "", internalSignature := "",
    customerID := "", deliveryService := "", shardkey := "", smID := 0, dateCreated := "",
    oofShard := "", delivery := Delivery.zero, payment := Payment.zero, items := [] }

/-- Item-level projection returned by Database.ItemsInfo (model.ItemInfo). -/
structure ItemInfo where
  trackNumber : String
  name : String
  price : Int
  sale : Int
  size : String
  totalPrice : Int
  brand : String
deriving DecidableEq, Repr

end model

/-! ## cache package (cache/cache.go) -/

namespace cache

/-- Item represents a cached order with an optional expiration time
(Unix time in nanoseconds; 0 means no expiration). -/
structure Item where
  order : model.Order
  expiration : Int
deriving DecidableEq, Repr

/-- Item.IsExpired: the item has passed its expiration time.
`now` stands for the call to time.Now().UnixNano() made inside the method. -/
def Item.IsExpired (item : Item) (now : Int) : Bool :=
  if item.expiration = 0 then false
  else decide (now > item.expiration)

/-- NoExpiration = -1 * time.Second, in nanoseconds. -/
def NoExpiration : Int := -1000000000

/-- DefaultTTL = 10 * time.Minute, in nanoseconds. -/
def DefaultTTL : Int := 600000000000

/-- gcInterval = 30 * time.Second, in nanoseconds. -/
def gcInterval : Int := 30000000000

/-- Cache: the items map plus the configured snapshot file path.  The mutex
and the stop channel of the source guard concurrent access and the reaper
goroutine; the embedding is sequential, so they carry no state here. -/
structure Cache where
  items : List (String × Item)
  gcIntervalNs : Int
  cacheFile : String
deriving DecidableEq, Repr

/-- New: fresh empty cache; an empty path falls back to "order_cache.gob". -/
def New (cacheFile : String) : Cache :=
  let f := if cacheFile = "" then "order_cache.gob" else cacheFile
  { items := [], gcIntervalNs := gcInterval, cacheFile := f }

/-- Cache.Set: compute e = now + d when d > 0 (otherwise e stays 0), then
overwrite the binding of the order's key with Item{order, e}. -/
def Set (c : Cache) (order : model.Order) (d : Int) (now : Int) : Cache :=
  let e : Int := if d > 0 then now + d else 0
  { c with items := gomap.update c.items order.orderUID ⟨order, e⟩ }

/-- Cache.Get: return (Order zero value, false) when the key is absent,
otherwise (item.Order, true).  The source performs no expiration check on
this path (its doc comment notwithstanding), so the embedding takes no
clock parameter. -/
def Get (c : Cache) (orderUID : String) : model.Order × Bool :=
  match gomap.find c.items orderUID with
  | none => (model.Order.zero, false)
  | some item => (item.order, true)

/-- Cache.Delete: remove the binding unconditionally. -/
def Delete (c : Cache) (orderUID : String) : Cache :=
  { c with items := gomap.erase c.items orderUID }

/-- Cache.DeleteExpired: physically remove every item with
Expiration > 0 and now > Expiration (the reaper body). -/
def DeleteExpired (c : Cache) (now : Int) : Cache :=
  { c with items :=
      c.items.filter (fun kv => !(decide (kv.2.expiration > 0) && decide (now > kv.2.expiration))) }

/-- File-system operations performed by snapshot persistence. -/
inductive FsOp
  | createFile (path : String)
  | encodeTo (path : String) (data : List (String × Item))
  | renameFile (src : String) (dst : String)
deriving DecidableEq, Repr

/-- Recognizer for the rename operation among file-system operations. -/
def FsOp.isRename : FsOp → Bool
  | .renameFile _ _ => true
  | _ => false

/-- The point-in-time copy taken by SaveToFile under the read lock:
a fresh map holding every current binding, with no filtering. -/
def snapshotCopy (c : Cache) : List (String × Item) :=
  c.items

/-- Cache.SaveToFile as the sequence of file-system operations it performs:
os.Create on the configured path (truncating any prior file in place),
then gob-encode the copied map into that same path. -/
def SaveToFileOps (c : Cache) : List FsOp :=
  [FsOp.createFile c.cacheFile, FsOp.encodeTo c.cacheFile (snapshotCopy c)]

/-- Result of reading the snapshot file: the file is absent (os.Open fails),
present but undecodable (gob decode fails), or decodes to an items map. -/
inductive FileRead
  | noFile
  | badDecode
  | decoded (items : List (String × Item))

/-- Errors returned by Cache.LoadFromFile. -/
inductive LoadErr
  | openFailed
  | decodeFailed
deriving DecidableEq, Repr

/-- Cache.LoadFromFile: return the open or decode error leaving the map
untouched; on a successful decode replace the items map wholesale. -/
def LoadFromFile (c : Cache) (f : FileRead) : Except LoadErr Unit × Cache :=
  match f with
  | .noFile => (.error .openFailed, c)
  | .badDecode => (.error .decodeFailed, c)
  | .decoded items => (.ok (), { c with items := items })

end cache

/-! ## database package (database/database.go) -/

namespace database

/-- One row of the orders table, as inserted by MakeOrder. -/
structure OrderRow where
  orderUID : String
  trackNumber : String
  entry : String
  locale : String
  internalSignature : String
  customerID : String
  deliveryService : String
  shardkey : String
  smID : Int
  dateCreated : String
  oofShard : String
deriving DecidableEq, Repr

/-- One row of the delivery table. -/
structure DeliveryRow where
  orderUID : String
  name : String
  phone : String
  zip : String
  city : String
  address : String
  region : String
  email : String
deriving DecidableEq, Repr

/-- One row of the payment table. -/
structure PaymentRow where
  transaction : String
  orderUID : String
  requestID : String
  currency : String
  provider : String
  amount : Int
  paymentDt : Int
  bank : String
  deliveryCost : Int
  goodsTotal : Int
  customFee : Int
deriving DecidableEq, Repr

/-- One row of the items table. -/
structure ItemRow where
  chrtID : Int
  trackNumber : String
  price : Int
  rid : String
  name : String
  sale : Int
  size : String
  totalPrice : Int
  nmID : Int
  brand : String
  status : Int
  orderUID : String
deriving DecidableEq, Repr

/-- The visible (committed) state of the Postgres store: its four tables. -/
structure DBState where
  orders : List OrderRow
  delivery : List DeliveryRow
  payment : List PaymentRow
  items : List ItemRow
deriving DecidableEq, Repr

/-- The orders row built from a model.Order by MakeOrder's first INSERT. -/
def orderRowOf (o : model.Order) : OrderRow :=
  { orderUID := o.orderUID, trackNumber := o.trackNumber, entry := o.entry,
    locale := o.locale, internalSignature := o.internalSignature,
    customerID := o.customerID, deliveryService := o.deliveryService,
    shardkey := o.shardkey, smID := o.smID, dateCreated := o.dateCreated,
    oofShard := o.oofShard }

/-- The delivery row built by MakeOrder's second INSERT. -/
def deliveryRowOf (o : model.Order) : DeliveryRow :=
  { orderUID := o.orderUID, name := o.delivery.name, phone := o.delivery.phone,
    zip := o.delivery.zip, city := o.delivery.city, address := o.delivery.address,
    region := o.delivery.region, email := o.delivery.email }

/-- The payment row built by MakeOrder's third INSERT. -/
def paymentRowOf (o : model.Order) : PaymentRow :=
  { transaction := o.payment.transaction, orderUID := o.orderUID,
    requestID := o.payment.requestID, currency := o.payment.currency,
    provider := o.payment.provider, amount := o.payment.amount,
    paymentDt := o.payment.paymentDt, bank := o.payment.bank,
    deliveryCost := o.payment.deliveryCost, goodsTotal := o.payment.goodsTotal,
    customFee := o.payment.customFee }

/-- The items row built by MakeOrder's per-item INSERT. -/
def itemRowOf (uid : String) (it : model.Item) : ItemRow :=
  { chrtID := it.chrtID, trackNumber := it.trackNumber, price := it.price,
    rid := it.rid, name := it.name, sale := it.sale, size := it.size,
    totalPrice := it.totalPrice, nmID := it.nmID, brand := it.brand,
    status := it.status, orderUID := uid }

/-- Steps of the MakeOrder transaction at which the SQL layer may fail;
the oracle passed to MakeOrder says which ones do. -/
inductive TxStep
  | beginTx
  | dupCheck
  | insertOrder
  | insertDelivery
  | insertPayment
  | insertItem (i : Nat)
  | commitTx
deriving DecidableEq, Repr

/-- Errors MakeOrder can return; orderExists embeds model.ErrOrderExists
(the error errors.Is recognises through the fmt.Errorf wrapping). -/
inductive MakeOrderErr
  | beginFailed
  | dupCheckFailed
  | orderExists
  | orderInsertFailed
  | deliveryInsertFailed
  | paymentInsertFailed
  | itemInsertFailed
  | commitFailed
deriving DecidableEq, Repr

/-- Rows buffered inside the open transaction, visible only after Commit. -/
structure Tx where
  pendingOrders : List OrderRow
  pendingDelivery : List DeliveryRow
  pendingPayment : List PaymentRow
  pendingItems : List ItemRow
deriving DecidableEq, Repr

/-- Begin: a transaction starts with no pending rows. -/
def txBegin : Tx :=
  { pendingOrders := [], pendingDelivery := [], pendingPayment := [], pendingItems := [] }

/-- Commit: publish the pending rows by appending them to the tables. -/
def txCommit (db : DBState) (tx : Tx) : DBState :=
  { orders := db.orders ++ tx.pendingOrders,
    delivery := db.delivery ++ tx.pendingDelivery,
    payment := db.payment ++ tx.pendingPayment,
    items := db.items ++ tx.pendingItems }

/-- The per-item INSERT loop of MakeOrder: insert each item row into the
transaction, stopping with an error at the first item whose INSERT the
oracle fails (i counts the loop iterations already done). -/
def insertItems (tx : Tx) (uid : String) (itemList : List model.Item)
    (fail : TxStep → Bool) (i : Nat) : Except MakeOrderErr Tx :=
  match itemList with
  | [] => .ok tx
  | it :: rest =>
    if fail (.insertItem i) then .error .itemInsertFailed
    else insertItems { tx with pendingItems := tx.pendingItems ++ [itemRowOf uid it] }
      uid rest fail (i + 1)

/-- Database.MakeOrder: inside one transaction, check for a duplicate
order_uid, insert the order header, the delivery row, the payment row and
every item row, then commit.  Any failure returns the error with the
transaction rolled back, so the visible state is the input db; only the
final Commit publishes the pending rows. -/
def MakeOrder (db : DBState) (o : model.Order) (fail : TxStep → Bool) :
    Except MakeOrderErr Unit × DBState :=
  if fail .beginTx then (.error .beginFailed, db)
  else
    let tx := txBegin
    if fail .dupCheck then (.error .dupCheckFailed, db)
    else if db.orders.any (fun r => r.orderUID = o.orderUID) then (.error .orderExists, db)
    else if fail .insertOrder then (.error .orderInsertFailed, db)
    else
      let tx := { tx with pendingOrders := tx.pendingOrders ++ [orderRowOf o] }
      if fail .insertDelivery then (.error .deliveryInsertFailed, db)
      else
        let tx := { tx with pendingDelivery := tx.pendingDelivery ++ [deliveryRowOf o] }
        if fail .insertPayment then (.error .paymentInsertFailed, db)
        else
          let tx := { tx with pendingPayment := tx.pendingPayment ++ [paymentRowOf o] }
          match insertItems tx o.orderUID o.items fail 0 with
          | .error e => (.error e, db)
          | .ok tx2 =>
            if fail .commitTx then (.error .commitFailed, db)
            else (.ok (), txCommit db tx2)

/-- The store state after a fully successful MakeOrder for order o: the
header row, the delivery row, the payment row and one row per line item,
all appended to their tables. -/
def putResult (db : DBState) (o : model.Order) : DBState :=
  { orders := db.orders ++ [orderRowOf o],
    delivery := db.delivery ++ [deliveryRowOf o],
    payment := db.payment ++ [paymentRowOf o],
    items := db.items ++ o.items.map (itemRowOf o.orderUID) }

/-- Errors of Database.ItemsInfo; orderNotFound is model.ErrOrderNotFound. -/
inductive ItemsInfoErr
  | queryFailed
  | orderNotFound
deriving DecidableEq, Repr

/-- The model.ItemInfo projection scanned from an items row
(track_number, name, price, sale, size, total_price, brand). -/
def itemInfoOfRow (r : ItemRow) : model.ItemInfo :=
  { trackNumber := r.trackNumber, name := r.name, price := r.price, sale := r.sale,
    size := r.size, totalPrice := r.totalPrice, brand := r.brand }

/-- Database.ItemsInfo: select the item rows of the given order_uid;
a query or scan failure (oracle qfail) propagates as an error, and an
empty result returns model.ErrOrderNotFound. -/
def ItemsInfo (db : DBState) (qfail : Bool) (order_uid : String) :
    Except ItemsInfoErr (List model.ItemInfo) :=
  if qfail then .error .queryFailed
  else if ((db.items.filter (fun r => r.orderUID = order_uid)).map itemInfoOfRow).length = 0 then
    .error .orderNotFound
  else .ok ((db.items.filter (fun r => r.orderUID = order_uid)).map itemInfoOfRow)

end database

/-! ## handler package (HandleOrder) -/

namespace handler

/-- What json.Unmarshal makes of the message payload: the payload is empty
(len(msg.Value) == 0), not decodable into model.Order, or decodes to an
order value. -/
inductive MsgValue
  | emptyVal
  | badJSON
  | goodJSON (o : model.Order)

/-- A Kafka message as HandleOrder sees it. -/
structure KafkaMessage where
  key : String
  value : MsgValue

/-- The non-nil errors HandleOrder can return (each wrapped by fmt.Errorf
in the source; errors.Is still finds model.ErrOrderExists through the
wrapping, which is why orderExists is absorbed before this type). -/
inductive HandleErr
  | unmarshalFailed
  | emptyOrderUID
  | makeOrderFailed (e : database.MakeOrderErr)
deriving DecidableEq, Repr

/-- handler.HandleOrder: skip empty payloads (nil), reject undecodable
payloads and empty order_uids (error), skip orders already found in the
cache (nil), otherwise write through MakeOrder — absorbing
model.ErrOrderExists into nil — and on a successful write cache the order
with DefaultTTL.  Returns (error value, store state, cache state). -/
def HandleOrder (msg : KafkaMessage) (db : database.DBState) (c : cache.Cache)
    (fail : database.TxStep → Bool) (now : Int) :
    Except HandleErr Unit × database.DBState × cache.Cache :=
  match msg.value with
  | .emptyVal => (.ok (), db, c)
  | .badJSON => (.error .unmarshalFailed, db, c)
  | .goodJSON o =>
    if o.orderUID = "" then (.error .emptyOrderUID, db, c)
    else if (cache.Get c o.orderUID).2 then (.ok (), db, c)
    else
      match database.MakeOrder db o fail with
      | (.error .orderExists, db2) => (.ok (), db2, c)
      | (.error e, db2) => (.error (.makeOrderFailed e), db2, c)
      | (.ok _, db2) => (.ok (), db2, cache.Set c o cache.DefaultTTL now)

end handler

/-! ## server package (HTTP lookup handler) -/

namespace server

/-- The per-item JSON shape of the DB-miss response (server.ItemResponse). -/
structure ItemResponse where
  name : String
  price : Int
  size : String
  totalPrice : Int
  brand : String
deriving DecidableEq, Repr

/-- The anonymous response struct built on the DB path of orderAPIHandler:
order_uid plus the item projections. -/
structure OrderResponse where
  orderUID : String
  items : List ItemResponse
deriving DecidableEq, Repr

/-- server.orderToModel: rebuild a model.Order from the simplified
response, leaving every field the response does not carry at its Go zero
value. -/
def orderToModel (r : OrderResponse) : model.Order :=
  { model.Order.zero with
    orderUID := r.orderUID,
    items := r.items.map (fun it =>
      { model.Item.zero with
        name := it.name, price := it.price, size := it.size,
        totalPrice := it.totalPrice, brand := it.brand }) }

/-- What orderAPIHandler writes back for a well-formed GET /order/{id}
request: 404, the cached model.Order serialized directly (cache hit), or
the simplified item-projection response (DB path). -/
inductive APIResult
  | notFound
  | okOrder (o : model.Order)
  | okItems (r : OrderResponse)
deriving DecidableEq, Repr

/-- The simplified response struct orderAPIHandler builds on the DB path:
order_uid plus one ItemResponse per item row returned by ItemsInfo. -/
def respOf (orderID : String) (itemList : List model.ItemInfo) : OrderResponse :=
  { orderUID := orderID,
    items := itemList.map (fun it =>
      { name := it.name, price := it.price, size := it.size,
        totalPrice := it.totalPrice, brand := it.brand }) }

/-- server.orderAPIHandler, after the method and path checks have
extracted orderID: return the cached order on a cache hit; otherwise ask
Database.ItemsInfo, mapping any error or an empty item list to 404; on a
DB hit build the simplified response, cache orderToModel(response) with
DefaultTTL, and return the response. -/
def orderAPIHandler (c : cache.Cache) (db : database.DBState) (qfail : Bool)
    (orderID : String) (now : Int) : APIResult × cache.Cache :=
  if (cache.Get c orderID).2 then (.okOrder (cache.Get c orderID).1, c)
  else
    match database.ItemsInfo db qfail orderID with
    | .error _ => (.notFound, c)
    | .ok itemList =>
      if itemList.length = 0 then (.notFound, c)
      else
        let resp : OrderResponse := respOf orderID itemList
        (.okItems resp, cache.Set c (orderToModel resp) cache.DefaultTTL now)

end server

/-! ## app package (consumer loop and boot sequence) -/

namespace app

/-- The commit decision of RunKafkaReader: after HandleOrder returns, the
loop continues without committing when the error is non-nil, and calls
reader.CommitMessages exactly when HandleOrder returned nil. -/
def commitsMessage (r : Except handler.HandleErr Unit) : Bool :=
  match r with
  | .ok _ => true
  | .error _ => false

/-- app.InitializeCache: create the cache with path "order_cache.gob",
attempt LoadFromFile ignoring its error (logged only), then — unless
GetAllOrders itself failed (also only logged) — walk the orders read from
the store and Set with NoExpiration every order whose key Get does not
find in the cache.  `dbOrders` stands for the result of db.GetAllOrders();
its Go map iteration is modelled as a list. -/
def InitializeCache (snap : cache.FileRead)
    (dbOrders : Except Unit (List model.Order)) (now : Int) : cache.Cache :=
  let c := cache.New "order_cache.gob"
  let c := (cache.LoadFromFile c snap).2
  match dbOrders with
  | .error _ => c
  | .ok orders =>
    orders.foldl (fun acc o =>
      if (cache.Get acc o.orderUID).2 then acc
      else cache.Set acc o cache.NoExpiration now) c

end app

/-! ## Spec-side predicates (for refinement comparisons with the source)

These two definitions follow the wording of the spec, not the source, and
exist to be compared against the source-derived definitions above. -/

/-- Spec wording for snapshot persistence: the snapshot is written to a
temporary file which is then renamed onto the target path, so the target
is replaced atomically. -/
def WritesViaTempThenRename (ops : List cache.FsOp) (target : String)
    (data : List (String × cache.Item)) : Prop :=
  ∃ tmp, tmp ≠ target ∧
    ops = [cache.FsOp.createFile tmp, cache.FsOp.encodeTo tmp data,
           cache.FsOp.renameFile tmp target]

/-- Spec wording for the snapshot round trip: saving and then loading into
a fresh empty cache reproduces the same (key, record, expiresAt) triples,
excluding the entries that are expired at the reload time. -/
def RoundTripExcludesExpired (c : cache.Cache) (reloadNow : Int) : Prop :=
  (cache.LoadFromFile (cache.New c.cacheFile)
      (.decoded (cache.snapshotCopy c))).2.items
    = c.items.filter (fun kv => !(cache.Item.IsExpired kv.2 reloadNow))

/-! ## Concrete fixtures used by counterexamples and witnesses -/

/-- The all-pass SQL oracle: no infrastructure step fails. -/
def noFail : database.TxStep → Bool := fun _ => false

/-- A concrete line item. -/
def sampleItem : model.Item :=
  { model.Item.zero with
    chrtID := 9934930, trackNumber := "WBILMTESTTRACK", price := 453,
    rid := "ab4219087a764ae0btest", name := "Mascaras", sale := 30,
    size := "0", totalPrice := 317, nmID := 2389212, brand := "Vivienne Sabo",
    status := 202 }

/-- A concrete order with one line item. -/
def sampleOrder : model.Order :=
  { model.Order.zero with
    orderUID := "b563feb7b2b84b6test", trackNumber := "WBILMTESTTRACK",
    entry := "WBIL", items := [sampleItem] }

/-- The empty store. -/
def emptyDB : database.DBState :=
  { orders := [], delivery := [], payment := [], items := [] }

/-- A concrete order whose key is "a". -/
def order1 : model.Order := { model.Order.zero with orderUID := "a" }

/-- A cache holding order1 under key "a" with expiration timestamp 5
(a TTL of 5ns granted at time 0). -/
def c1cache : cache.Cache := cache.Set (cache.New "") order1 5 0

/-- A concrete malformed Kafka message: its payload is non-empty but does
not deserialize into model.Order. -/
def badMsg : handler.KafkaMessage := { key := "k1", value := .badJSON }

/-- A concrete well-formed Kafka message carrying sampleOrder. -/
def goodMsg : handler.KafkaMessage := { key := "k2", value := .goodJSON sampleOrder }

/-- The store after a successful MakeOrder for sampleOrder: it already
holds that order id. -/
def dupDB : database.DBState := database.putResult emptyDB sampleOrder

/-- The ItemsInfo projection of sampleOrder's single item row. -/
def sampleInfoList : List model.ItemInfo :=
  [database.itemInfoOfRow (database.itemRowOf "b563feb7b2b84b6test" sampleItem)]

/-! ## Supporting lemmas: Go map operations -/

@[simp] theorem gomap.find_nil (k : String) :
    gomap.find ([] : List (String × α)) k = none := rfl

theorem gomap.find_update_self (m : List (String × α)) (k : String) (v : α) :
    gomap.find (gomap.update m k v) k = some v := by
  induction m with
  | nil => simp [gomap.find, gomap.update]
  | cons kv rest ih =>
    obtain ⟨k1, v1⟩ := kv
    by_cases h : k1 = k
    · simp [gomap.find, gomap.update, h]
    · simp [gomap.find, gomap.update, h, ih]

theorem gomap.find_update_ne (m : List (String × α)) (k k2 : String) (v : α)
    (h : k2 ≠ k) : gomap.find (gomap.update m k v) k2 = gomap.find m k2 := by
  have h2 : k ≠ k2 := Ne.symm h
  induction m with
  | nil => simp [gomap.find, gomap.update, h2]
  | cons kv rest ih =>
    obtain ⟨k1, v1⟩ := kv
    by_cases hk : k1 = k
    · subst hk
      simp [gomap.find, gomap.update, h2]
    · simp [gomap.find, gomap.update, hk, ih]

theorem gomap.update_update_self (m : List (String × α)) (k : String) (v : α) :
    gomap.update (gomap.update m k v) k v = gomap.update m k v := by
  induction m with
  | nil => simp [gomap.update]
  | cons kv rest ih =>
    obtain ⟨k1, v1⟩ := kv
    by_cases h : k1 = k
    · simp [gomap.update, h]
    · simp [gomap.update, h, ih]

/-! ## Supporting lemmas: cache operations -/

theorem cache.Get_of_find (c : cache.Cache) (k : String) (it : cache.Item)
    (h : gomap.find c.items k = some it) : cache.Get c k = (it.order, true) := by
  simp [cache.Get, h]

theorem cache.Get_of_find_none (c : cache.Cache) (k : String)
    (h : gomap.find c.items k = none) : cache.Get c k = (model.Order.zero, false) := by
  simp [cache.Get, h]

theorem cache.find_Set_self (c : cache.Cache) (o : model.Order) (d now : Int) :
    gomap.find (cache.Set c o d now).items o.orderUID
      = some ⟨o, if d > 0 then now + d else 0⟩ := by
  simp [cache.Set, gomap.find_update_self]

theorem cache.find_Set_noExp (c : cache.Cache) (o : model.Order) (now : Int) :
    gomap.find (cache.Set c o cache.NoExpiration now).items o.orderUID = some ⟨o, 0⟩ := by
  rw [cache.find_Set_self]
  norm_num [cache.NoExpiration]

theorem cache.find_Set_ne (c : cache.Cache) (o : model.Order) (d now : Int)
    (k : String) (h : k ≠ o.orderUID) :
    gomap.find (cache.Set c o d now).items k = gomap.find c.items k := by
  simp [cache.Set, gomap.find_update_ne _ _ _ _ h]

/-! ## Supporting lemmas: the MakeOrder transaction -/

theorem database.insertItems_ok (uid : String) (fail : database.TxStep → Bool) :
    ∀ (l : List model.Item) (tx tx2 : database.Tx) (i : Nat),
    database.insertItems tx uid l fail i = .ok tx2 →
    tx2 = { tx with pendingItems := tx.pendingItems ++ l.map (database.itemRowOf uid) } := by
  intro l
  induction l with
  | nil =>
    intro tx tx2 i h
    simp [database.insertItems] at h
    simp [← h]
  | cons it rest ih =>
    intro tx tx2 i h
    simp only [database.insertItems] at h
    by_cases hf : fail (.insertItem i) = true
    · rw [if_pos hf] at h
      exact absurd h (by simp)
    · rw [if_neg (by simpa using hf)] at h
      have h2 := ih _ _ _ h
      simp [h2]

theorem database.insertItems_noFail (uid : String) :
    ∀ (l : List model.Item) (tx : database.Tx) (i : Nat),
    database.insertItems tx uid l noFail i
      = .ok { tx with pendingItems := tx.pendingItems ++ l.map (database.itemRowOf uid) } := by
  intro l
  induction l with
  | nil => intro tx i; simp [database.insertItems]
  | cons it rest ih =>
    intro tx i
    simp only [database.insertItems, noFail, Bool.false_eq_true, if_false, ih]
    simp

/-- Full characterization of MakeOrder: either it succeeds and the four
tables gain exactly the rows of the order, or it returns an error and the
store is unchanged (the transaction rolled back). -/
theorem database.MakeOrder_spec (db : database.DBState) (o : model.Order)
    (fail : database.TxStep → Bool) :
    ((database.MakeOrder db o fail).1 = .ok ()
        ∧ (database.MakeOrder db o fail).2 = database.putResult db o)
    ∨ ((∃ e, (database.MakeOrder db o fail).1 = .error e)
        ∧ (database.MakeOrder db o fail).2 = db) := by
  unfold database.MakeOrder
  simp only [database.txBegin]
  repeat' split
  all_goals try (right; exact ⟨⟨_, rfl⟩, rfl⟩)
  rename_i tx2 heq hcommit
  left
  have h2 := database.insertItems_ok _ _ _ _ _ _ heq
  subst h2
  simp [database.txCommit, database.putResult]

theorem database.MakeOrder_noFail (db : database.DBState) (o : model.Order)
    (hdup : db.orders.any (fun r => r.orderUID = o.orderUID) = false) :
    database.MakeOrder db o noFail = (.ok (), database.putResult db o) := by
  unfold database.MakeOrder
  simp only [database.txBegin]
  rw [database.insertItems_noFail]
  simp [noFail, hdup, database.txCommit, database.putResult]

theorem database.ItemsInfo_ok_shape (db : database.DBState) (qf : Bool) (uid : String)
    (l : List model.ItemInfo) (h : database.ItemsInfo db qf uid = .ok l) :
    l = (db.items.filter (fun r => r.orderUID = uid)).map database.itemInfoOfRow
    ∧ l.length ≠ 0 := by
  unfold database.ItemsInfo at h
  split at h
  · exact absurd h (by simp)
  · split at h
    · exact absurd h (by simp)
    · rename_i hq hz
      injection h with h2
      subst h2
      exact ⟨rfl, hz⟩

/-! ## Supporting lemmas: the boot reconciliation fold -/

theorem app.initFold_preserves (now : Int) (orders : List model.Order) :
    ∀ (acc : cache.Cache) (k : String) (it : cache.Item),
    gomap.find acc.items k = some it →
    gomap.find ((orders.foldl (fun acc2 o =>
      if (cache.Get acc2 o.orderUID).2 then acc2
      else cache.Set acc2 o cache.NoExpiration now) acc)).items k = some it := by
  induction orders with
  | nil => intro acc k it h; simpa using h
  | cons o rest ih =>
    intro acc k it h
    simp only [List.foldl_cons]
    by_cases hg : (cache.Get acc o.orderUID).2 = true
    · rw [if_pos hg]
      exact ih acc k it h
    · rw [if_neg hg]
      apply ih
      have hne : k ≠ o.orderUID := by
        intro hk
        subst hk
        rw [cache.Get_of_find acc _ it h] at hg
        simp at hg
      rw [cache.find_Set_ne _ _ _ _ _ hne]
      exact h

theorem app.initFold_new_entries (now : Int) (orders : List model.Order) :
    ∀ (acc : cache.Cache) (k : String) (it : cache.Item),
    gomap.find ((orders.foldl (fun acc2 o =>
      if (cache.Get acc2 o.orderUID).2 then acc2
      else cache.Set acc2 o cache.NoExpiration now) acc)).items k = some it →
    gomap.find acc.items k = some it ∨ it.expiration = 0 := by
  induction orders with
  | nil => intro acc k it h; left; simpa using h
  | cons o rest ih =>
    intro acc k it h
    simp only [List.foldl_cons] at h
    by_cases hg : (cache.Get acc o.orderUID).2 = true
    · rw [if_pos hg] at h
      exact ih acc k it h
    · rw [if_neg hg] at h
      rcases ih _ k it h with h2 | h2
      · by_cases hk : k = o.orderUID
        · subst hk
          rw [cache.find_Set_noExp] at h2
          right
          injection h2 with h3
          rw [← h3]
        · left
          rwa [cache.find_Set_ne _ _ _ _ _ hk] at h2
      · right
        exact h2

/-- app.InitializeCache on a decodable snapshot and a successful scan
reduces to the reconciliation fold over the snapshot-loaded cache. -/
theorem app.InitializeCache_decoded (snapItems : List (String × cache.Item))
    (dbOrders : List model.Order) (now : Int) :
    app.InitializeCache (.decoded snapItems) (.ok dbOrders) now
      = dbOrders.foldl (fun acc2 o =>
          if (cache.Get acc2 o.orderUID).2 then acc2
          else cache.Set acc2 o cache.NoExpiration now)
        { items := snapItems, gcIntervalNs := cache.gcInterval,
          cacheFile := "order_cache.gob" } := rfl

/-! ## The claims -/

/-- C1: the claim (and Get's own doc comment) requires Get to evaluate the
expiration predicate at call time and report found=false once the query
time passes T+t, regardless of physical reaping.  The code does not: for
the entry stored at time 0 with a 5ns TTL and queried at time 10, Get
still reports found=true although the code's own IsExpired predicate holds
at 10 and the reaper's DeleteExpired would remove the entry; found only
becomes false after that physical deletion. -/
theorem C1_get_returns_expired_entry :
    (cache.Get c1cache "a").2 = true
    ∧ cache.Item.IsExpired ⟨order1, 5⟩ 10 = true
    ∧ gomap.find (cache.DeleteExpired c1cache 10).items "a" = none
    ∧ (cache.Get (cache.DeleteExpired c1cache 10) "a").2 = false := by
  refine ⟨rfl, rfl, rfl, rfl⟩

/-- C2 counterexample: for a concrete message whose payload fails to
deserialize, HandleOrder returns the unmarshal error, and the consumer
loop of RunKafkaReader — which commits exactly the nil outcomes — does
not commit it, contrary to the claim that a malformed message is still
acknowledged and never redelivered. -/
theorem C2_malformed_not_committed_cex :
    (handler.HandleOrder badMsg emptyDB (cache.New "") noFail 0).1
      = .error .unmarshalFailed
    ∧ app.commitsMessage
        (handler.HandleOrder badMsg emptyDB (cache.New "") noFail 0).1 = false :=
  ⟨rfl, rfl⟩

/-- C2 (amended): a payload that fails to deserialize into the order
record shape makes HandleOrder return the unmarshal error (its
Rejected(MalformedPayload) analogue), leaving the store and cache
untouched, and the consumer loop does not commit the message — it commits
only nil outcomes — so a malformed message may be redelivered. -/
theorem C2_malformed_rejected_not_committed
    (msg : handler.KafkaMessage) (db : database.DBState) (c : cache.Cache)
    (fail : database.TxStep → Bool) (now : Int)
    (h : msg.value = .badJSON) :
    handler.HandleOrder msg db c fail now = (.error .unmarshalFailed, db, c)
    ∧ app.commitsMessage (handler.HandleOrder msg db c fail now).1 = false := by
  constructor <;> simp [handler.HandleOrder, h, app.commitsMessage]

/-- Witness for C2 (amended) at the concrete malformed message. -/
theorem C2_malformed_rejected_not_committed_witness :
    handler.HandleOrder badMsg emptyDB (cache.New "") noFail 0
      = (.error .unmarshalFailed, emptyDB, cache.New "")
    ∧ app.commitsMessage
        (handler.HandleOrder badMsg emptyDB (cache.New "") noFail 0).1 = false :=
  C2_malformed_rejected_not_committed badMsg emptyDB (cache.New "") noFail 0 rfl

/-- C3: delivering the same well-formed message twice in sequence, from a
state where the order id is in neither the cache nor the store and the
store does not fail: the first call performs the store write (putResult)
and caches the order; the second call is suppressed by the
cache-duplicate check and leaves the store unchanged; both calls return
nil (committed — not a transient failure). -/
theorem C3_redelivery_single_store_write
    (msg : handler.KafkaMessage) (o : model.Order) (db : database.DBState)
    (c : cache.Cache) (now now2 : Int)
    (hmsg : msg.value = .goodJSON o)
    (huid : o.orderUID ≠ "")
    (hcache : gomap.find c.items o.orderUID = none)
    (hdb : db.orders.any (fun r => r.orderUID = o.orderUID) = false) :
    (handler.HandleOrder msg db c noFail now).1 = .ok ()
    ∧ (handler.HandleOrder msg db c noFail now).2.1 = database.putResult db o
    ∧ handler.HandleOrder msg (handler.HandleOrder msg db c noFail now).2.1
        (handler.HandleOrder msg db c noFail now).2.2 noFail now2
      = (.ok (), database.putResult db o,
         (handler.HandleOrder msg db c noFail now).2.2) := by
  have h1 : handler.HandleOrder msg db c noFail now
      = (.ok (), database.putResult db o, cache.Set c o cache.DefaultTTL now) := by
    simp [handler.HandleOrder, hmsg, huid, cache.Get_of_find_none _ _ hcache,
      database.MakeOrder_noFail db o hdb]
  have hfound : (cache.Get (cache.Set c o cache.DefaultTTL now) o.orderUID).2 = true := by
    rw [cache.Get_of_find _ _ _ (cache.find_Set_self c o cache.DefaultTTL now)]
  refine ⟨by rw [h1], by rw [h1], ?_⟩
  rw [h1]
  simp [handler.HandleOrder, hmsg, huid, hfound]

/-- Witness for C3 at the concrete message carrying sampleOrder, starting
from the empty store and a fresh cache. -/
theorem C3_redelivery_single_store_write_witness :
    (handler.HandleOrder goodMsg emptyDB (cache.New "") noFail 0).1 = .ok ()
    ∧ (handler.HandleOrder goodMsg emptyDB (cache.New "") noFail 0).2.1
        = database.putResult emptyDB sampleOrder
    ∧ handler.HandleOrder goodMsg
        (handler.HandleOrder goodMsg emptyDB (cache.New "") noFail 0).2.1
        (handler.HandleOrder goodMsg emptyDB (cache.New "") noFail 0).2.2 noFail 1
      = (.ok (), database.putResult emptyDB sampleOrder,
         (handler.HandleOrder goodMsg emptyDB (cache.New "") noFail 0).2.2) :=
  C3_redelivery_single_store_write goodMsg sampleOrder emptyDB (cache.New "") 0 1
    rfl (by decide) rfl rfl

/-- C4: the boot sequence loads the snapshot first, then Sets with no
expiration only the scanned store records whose key is not already in the
cache: every snapshot triple survives with its original absolute
expiration timestamp (never reset to permanent) and Get finds it, while
every key the snapshot did not contain is stored with expiration 0
(permanent). -/
theorem C4_boot_preserves_snapshot_expiry
    (snapItems : List (String × cache.Item)) (dbOrders : List model.Order) (now : Int) :
    (∀ k it, gomap.find snapItems k = some it →
      gomap.find (app.InitializeCache (.decoded snapItems) (.ok dbOrders) now).items k
          = some it
      ∧ cache.Get (app.InitializeCache (.decoded snapItems) (.ok dbOrders) now) k
          = (it.order, true))
    ∧ (∀ k it, gomap.find snapItems k = none →
        gomap.find (app.InitializeCache (.decoded snapItems) (.ok dbOrders) now).items k
          = some it →
        it.expiration = 0) := by
  constructor
  · intro k it h
    rw [app.InitializeCache_decoded]
    have hf := app.initFold_preserves now dbOrders
      { items := snapItems, gcIntervalNs := cache.gcInterval,
        cacheFile := "order_cache.gob" } k it h
    exact ⟨hf, cache.Get_of_find _ _ _ hf⟩
  · intro k it hnone hsome
    rw [app.InitializeCache_decoded] at hsome
    rcases app.initFold_new_entries now dbOrders _ k it hsome with h2 | h2
    · exact absurd h2 (by simp [hnone])
    · exact h2

/-- Witness for C4: a snapshot entry expiring at 120s (2 minutes in ns
from epoch 0) survives boot reconciliation over a store scan that also
contains its key, and Get at 60s still finds it. -/
theorem C4_boot_preserves_snapshot_expiry_witness :
    gomap.find (app.InitializeCache
        (.decoded [("a", ⟨order1, 120000000000⟩)])
        (.ok [order1, sampleOrder]) 60000000000).items "a"
      = some ⟨order1, 120000000000⟩
    ∧ cache.Get (app.InitializeCache
        (.decoded [("a", ⟨order1, 120000000000⟩)])
        (.ok [order1, sampleOrder]) 60000000000) "a"
      = (order1, true) :=
  (C4_boot_preserves_snapshot_expiry [("a", ⟨order1, 120000000000⟩)]
    [order1, sampleOrder] 60000000000).1 "a" ⟨order1, 120000000000⟩ rfl

/-- C5: MakeOrder detects an existing order id (when the transaction
infrastructure itself works) and rejects it with the distinguishable
orderExists error leaving the store unchanged; every failing run leaves
all four tables unchanged (no partial rows — rollback); and a successful
run appends the header, delivery, payment and item rows all at once. -/
theorem C5_makeorder_duplicate_and_atomic
    (db : database.DBState) (o : model.Order) (fail : database.TxStep → Bool) :
    (fail .beginTx = false → fail .dupCheck = false →
      db.orders.any (fun r => r.orderUID = o.orderUID) = true →
      database.MakeOrder db o fail = (.error .orderExists, db))
    ∧ (∀ e, (database.MakeOrder db o fail).1 = .error e →
        (database.MakeOrder db o fail).2 = db)
    ∧ ((database.MakeOrder db o fail).1 = .ok () →
        (database.MakeOrder db o fail).2 = database.putResult db o) := by
  refine ⟨?_, ?_, ?_⟩
  · intro h1 h2 h3
    unfold database.MakeOrder
    simp [h1, h2, h3]
  · intro e he
    rcases database.MakeOrder_spec db o fail with ⟨h1, h2⟩ | ⟨h1, h2⟩
    · rw [h1] at he
      exact absurd he (by simp)
    · exact h2
  · intro hok
    rcases database.MakeOrder_spec db o fail with ⟨h1, h2⟩ | ⟨⟨e, h1⟩, h2⟩
    · exact h2
    · rw [h1] at hok
      exact absurd hok (by simp)

/-- Witness for C5: inserting sampleOrder into a store that already holds
its id yields the duplicate error and leaves the store unchanged. -/
theorem C5_makeorder_duplicate_and_atomic_witness :
    database.MakeOrder dupDB sampleOrder noFail = (.error .orderExists, dupDB) :=
  (C5_makeorder_duplicate_and_atomic dupDB sampleOrder noFail).1 rfl rfl (by decide)

/-- C6 counterexample: SaveToFile's operation sequence on the concrete
cache c1cache is a direct create-and-encode of the target path; it is not
of the write-to-temporary-then-rename shape the claim requires. -/
theorem C6_no_temp_rename_cex :
    ¬ WritesViaTempThenRename (cache.SaveToFileOps c1cache) c1cache.cacheFile
        (cache.snapshotCopy c1cache) := by
  rintro ⟨tmp, hne, heq⟩
  simp [cache.SaveToFileOps] at heq

/-- C6 (amended): SaveToFile serializes the unfiltered point-in-time copy
of all entries (expired or not) to the configured path, but it does so by
creating/truncating the target file directly and encoding into it: no
temporary file and no rename operation occur, so the replacement is not
atomic against a crash mid-write. -/
theorem C6_save_direct_write_unfiltered (c : cache.Cache) :
    cache.SaveToFileOps c
      = [cache.FsOp.createFile c.cacheFile, cache.FsOp.encodeTo c.cacheFile c.items]
    ∧ cache.snapshotCopy c = c.items
    ∧ (cache.SaveToFileOps c).all (fun op => !(cache.FsOp.isRename op)) = true :=
  ⟨rfl, rfl, rfl⟩

/-- C7 counterexample: saving c1cache — whose only entry expires at 5 —
and reloading into a fresh empty cache, judged at reload time 10,
reproduces the expired triple as well: the loaded map is not the filtered
map the claim describes (which would be empty). -/
theorem C7_roundtrip_keeps_expired_cex :
    ¬ RoundTripExcludesExpired c1cache 10 := by
  unfold RoundTripExcludesExpired
  decide

/-- C7 (amended): SaveToFile followed by LoadFromFile into a fresh empty
cache reproduces exactly the same set of (key, record, expiresAt) triples
with no exclusion: entries already expired relative to the reload time
are reproduced too, because neither save nor load filters by expiry. -/
theorem C7_roundtrip_reproduces_all_triples (c : cache.Cache) (path : String) :
    (cache.LoadFromFile (cache.New path) (.decoded (cache.snapshotCopy c))).1 = .ok ()
    ∧ (cache.LoadFromFile (cache.New path) (.decoded (cache.snapshotCopy c))).2.items
        = c.items :=
  ⟨rfl, rfl⟩

/-- C8: Set inserts or overwrites the entry for the record's key: d > 0
stores expiresAt = now + d, while d = 0 or the NoExpiration sentinel
stores the entry as permanent (expiration 0); other keys are untouched,
and repeating the Set with the same arguments is an idempotent
overwrite. -/
theorem C8_set_semantics (c : cache.Cache) (o : model.Order) (d now : Int) :
    (d > 0 →
      gomap.find (cache.Set c o d now).items o.orderUID = some ⟨o, now + d⟩)
    ∧ ((d = 0 ∨ d = cache.NoExpiration) →
      gomap.find (cache.Set c o d now).items o.orderUID = some ⟨o, 0⟩)
    ∧ (∀ k, k ≠ o.orderUID →
      gomap.find (cache.Set c o d now).items k = gomap.find c.items k)
    ∧ cache.Set (cache.Set c o d now) o d now = cache.Set c o d now := by
  refine ⟨?_, ?_, ?_, ?_⟩
  · intro hd
    rw [cache.find_Set_self, if_pos hd]
  · intro hd
    rw [cache.find_Set_self, if_neg]
    rcases hd with rfl | rfl
    · simp
    · norm_num [cache.NoExpiration]
  · intro k hk
    exact cache.find_Set_ne c o d now k hk
  · simp [cache.Set, gomap.update_update_self]

/-- Witness for C8: a positive TTL stores now + d, and the NoExpiration
sentinel stores expiration 0. -/
theorem C8_set_semantics_witness :
    gomap.find (cache.Set (cache.New "") sampleOrder 5 0).items sampleOrder.orderUID
      = some ⟨sampleOrder, 5⟩
    ∧ gomap.find (cache.Set (cache.New "") sampleOrder cache.NoExpiration 0).items
        sampleOrder.orderUID = some ⟨sampleOrder, 0⟩ :=
  ⟨(C8_set_semantics (cache.New "") sampleOrder 5 0).1 (by decide),
   (C8_set_semantics (cache.New "") sampleOrder cache.NoExpiration 0).2.1 (Or.inr rfl)⟩

/-- C9: the lookup handler returns immediately on a cache hit; on a cache
miss with a store miss (ItemsInfo error, including the empty-result
not-found) it returns 404 leaving the cache unchanged; and on a store hit
it builds the simplified response, caches orderToModel(response) under
the requested key with DefaultTTL before returning it, so afterwards the
cache contains that record under the key. -/
theorem C9_lookup_read_through (c : cache.Cache) (db : database.DBState)
    (orderID : String) (now : Int) :
    ((cache.Get c orderID).2 = true →
      server.orderAPIHandler c db false orderID now
        = (.okOrder (cache.Get c orderID).1, c))
    ∧ (∀ qfail e, (cache.Get c orderID).2 = false →
        database.ItemsInfo db qfail orderID = .error e →
        server.orderAPIHandler c db qfail orderID now = (.notFound, c))
    ∧ (∀ itemList, (cache.Get c orderID).2 = false →
        database.ItemsInfo db false orderID = .ok itemList →
        server.orderAPIHandler c db false orderID now
          = (.okItems (server.respOf orderID itemList),
             cache.Set c (server.orderToModel (server.respOf orderID itemList))
               cache.DefaultTTL now)
        ∧ gomap.find (server.orderAPIHandler c db false orderID now).2.items orderID
            = some ⟨server.orderToModel (server.respOf orderID itemList),
                    now + cache.DefaultTTL⟩
        ∧ cache.Get (server.orderAPIHandler c db false orderID now).2 orderID
            = (server.orderToModel (server.respOf orderID itemList), true)) := by
  refine ⟨?_, ?_, ?_⟩
  · intro h
    simp [server.orderAPIHandler, h]
  · intro qfail e hmiss herr
    simp [server.orderAPIHandler, hmiss, herr]
  · intro itemList hmiss hok
    obtain ⟨hl, hlen⟩ := database.ItemsInfo_ok_shape db false orderID itemList hok
    have hmain : server.orderAPIHandler c db false orderID now
        = (.okItems (server.respOf orderID itemList),
           cache.Set c (server.orderToModel (server.respOf orderID itemList))
             cache.DefaultTTL now) := by
      simp [server.orderAPIHandler, hmiss, hok, hlen]
    have hkey : (server.orderToModel (server.respOf orderID itemList)).orderUID
        = orderID := rfl
    have hfind : gomap.find (server.orderAPIHandler c db false orderID now).2.items orderID
        = some ⟨server.orderToModel (server.respOf orderID itemList),
                now + cache.DefaultTTL⟩ := by
      rw [hmain]
      have h2 := cache.find_Set_self c
        (server.orderToModel (server.respOf orderID itemList)) cache.DefaultTTL now
      rw [hkey] at h2
      rw [h2, if_pos (by norm_num [cache.DefaultTTL])]
    exact ⟨hmain, hfind, cache.Get_of_find _ _ _ hfind⟩

/-- Witness for C9: a cache hit returns the cached order unchanged, and a
cache miss backed by a store row caches the projected record under the
requested key with the default TTL. -/
theorem C9_lookup_read_through_witness :
    server.orderAPIHandler c1cache emptyDB false "a" 0 = (.okOrder order1, c1cache)
    ∧ gomap.find (server.orderAPIHandler (cache.New "") dupDB false
          "b563feb7b2b84b6test" 0).2.items "b563feb7b2b84b6test"
      = some ⟨server.orderToModel (server.respOf "b563feb7b2b84b6test" sampleInfoList),
              0 + cache.DefaultTTL⟩ :=
  ⟨(C9_lookup_read_through c1cache emptyDB "a" 0).1 rfl,
   ((C9_lookup_read_through (cache.New "") dupDB "b563feb7b2b84b6test" 0).2.2
      sampleInfoList rfl rfl).2.1⟩

/-- C10: when LoadFromFile fails — the snapshot file cannot be opened or
its contents cannot be decoded — it returns the error and leaves the
cache's in-memory mapping completely unchanged; wholesale replacement
happens only on the fully successful decode path. -/
theorem C10_load_failure_preserves_cache (c : cache.Cache) (f : cache.FileRead)
    (e : cache.LoadErr) (h : (cache.LoadFromFile c f).1 = .error e) :
    (cache.LoadFromFile c f).2 = c := by
  cases f with
  | noFile => rfl
  | badDecode => rfl
  | decoded items => simp [cache.LoadFromFile] at h

/-- Witness for C10 at a concrete undecodable snapshot file. -/
theorem C10_load_failure_preserves_cache_witness :
    (cache.LoadFromFile c1cache cache.FileRead.badDecode).2 = c1cache :=
  C10_load_failure_preserves_cache c1cache .badDecode .decodeFailed rfl

end OrdersService
